import Mathlib

/-!
# Verification of the reconciliation engine of `publish-lessons.py`

A shallow embedding, in Lean 4, of the parts of
`src/programs/mavenseed/publish-lessons.py` that the specification's claims
are about: lesson-file validation, slug and chapter-name derivation, the
remote-snapshot cache's pagination loop, course resolution, and the
reconciliation loop of `main`.

Modelling conventions:
* Python strings are lists of Unicode codepoints (`PyStr := List Nat`).
  `str.lower`, `str.upper`-like operations and `str.capitalize` are modelled
  on their ASCII behaviour (the only behaviour this program exercises on
  folder and file names).
* The filesystem is an explicit association list from paths to file
  contents; `Path.open()` on a path that is not present raises, which the
  embedding models with `Except`.
* Network collaborators (login, course/chapter/lesson listings, the cache
  artifact on disk) are inputs to `mainRun`: the loaded cache content and
  the remote course list are fields of `RunInput`, exactly the values
  `main` obtains from `json.load(CACHE_FILE)` and `get_all_courses`.
* Python runtime exceptions that the code can raise (`FileNotFoundError`
  from `open`, `AttributeError` from calling `.get` on a dataclass,
  `KeyError` from indexing a dict, `ValueError` from the URL check) are
  constructors of `RunError`, as is `sys.exit(code)`.
-/

namespace PublishLessons

/-- Python strings, modelled as lists of Unicode codepoints. -/
abbrev PyStr := List Nat

/-- Codepoints of a Lean string literal, used to write concrete Python strings. -/
def strToCodes (s : String) : PyStr := s.toList.map Char.toNat

/-- ASCII model of the per-character behaviour of Python `str.lower()`. -/
def pyLowerChar (c : Nat) : Nat := if 65 ≤ c ∧ c ≤ 90 then c + 32 else c

/-- ASCII model of the per-character behaviour of Python `str.upper()`. -/
def pyUpperChar (c : Nat) : Nat := if 97 ≤ c ∧ c ≤ 122 then c - 32 else c

/-- Python `str.lower()` (ASCII model). -/
def pyLower (s : PyStr) : PyStr := s.map pyLowerChar

/-- Python `str.capitalize()` (ASCII model): first character uppercased,
all remaining characters lowercased. -/
def pyCapitalize : PyStr → PyStr
  | [] => []
  | c :: cs => pyUpperChar c :: pyLower cs

/-- Is the codepoint one of the separator characters of the character
class `[\-._]` in line 430 of the source (`-` 45, `.` 46, `_` 95)? -/
def isSep (c : Nat) : Prop := c = 45 ∨ c = 46 ∨ c = 95

instance (c : Nat) : Decidable (isSep c) := by unfold isSep; infer_instance

/-- Line 430: `re.sub(r"[\-._]", " ", chapter_name)` — every `-`, `.`, `_`
replaced by a space (32). -/
def replaceSeps (s : PyStr) : PyStr := s.map (fun c => if isSep c then 32 else c)

/-- Is the codepoint an ASCII digit (`\d` for the folder names at hand)? -/
def isDigitCp (c : Nat) : Bool := decide (48 ≤ c ∧ c ≤ 57)

/-- Worker for `subDigitsDot`. `pending` holds the current run of digits whose
fate is not yet decided: if the run is followed by a dot (46) the whole
match `\d+\.` is removed and scanning resumes after it, otherwise the
digits are emitted unchanged. This is exactly the leftmost, scan-resuming
semantics of `re.sub`: a match of `\d+\.` starts at a digit, `\d+` greedily
takes the maximal digit run (backtracking to fewer digits can never help,
since the following character would then be a digit, not a dot), and must
be followed by a literal dot. -/
def subDDAux (pending : PyStr) : PyStr → PyStr
  | [] => pending
  | c :: cs =>
    if isDigitCp c then subDDAux (pending ++ [c]) cs
    else if c = 46 then
      if pending = [] then 46 :: subDDAux [] cs
      else subDDAux [] cs
    else pending ++ c :: subDDAux [] cs

/-- Line 431: `re.sub(r"\d+\.", "", chapter_name)` — every occurrence of
one-or-more digits followed by a dot is deleted. -/
def subDigitsDot (s : PyStr) : PyStr := subDDAux [] s

/-- Lines 429–432 of `main`: the chapter name derived from a file's parent
folder name. The source first replaces `-`, `.`, `_` by spaces (line 430),
then deletes `digits+dot` occurrences (line 431), then capitalizes
(line 432). -/
def normalizeChapter (chapter_name : PyStr) : PyStr :=
  pyCapitalize (subDigitsDot (replaceSeps chapter_name))

/-- Python `str.replace(" ", "-")`: every space (32) becomes a hyphen (45). -/
def pyReplaceSpaceHyphen (s : PyStr) : PyStr := s.map (fun c => if c = 32 then 45 else c)

/-- A local path, as used by the program: `filepath.parent.name` (the
containing folder's name) and `filepath.name` (the final component). -/
structure LPath where
  parent : PyStr
  name : PyStr
deriving DecidableEq

/-- Index of the last dot (46) in a name, or `none`: Python `name.rfind('.')`. -/
def rfindDot (s : PyStr) : Option Nat :=
  (List.range s.length).foldl (fun acc i => if s.getD i 0 = 46 then some i else acc) none

/-- `pathlib.PurePath.suffix`: `name[i:]` for `i = name.rfind('.')` when
`0 < i < len(name) - 1`, else the empty string. -/
def pySuffix (name : PyStr) : PyStr :=
  match rfindDot name with
  | some i => if 0 < i ∧ i + 1 < name.length then name.drop i else []
  | none => []

/-- `pathlib.PurePath.stem`: the name without its suffix. -/
def pyStem (name : PyStr) : PyStr :=
  match rfindDot name with
  | some i => if 0 < i ∧ i + 1 < name.length then name.take i else name
  | none => name

/-- Line 437 of `main`: `lesson_slug = filepath.stem.lower().replace(" ", "-")`. -/
def slugOf (filepath : LPath) : PyStr :=
  pyReplaceSpaceHyphen (pyLower (pyStem filepath.name))

/-- The local filesystem: contents of each existing file. -/
abbrev FS := List (LPath × PyStr)

/-- Content of a file, or `none` when the path does not exist. -/
def fsRead (fs : FS) (p : LPath) : Option PyStr :=
  (fs.find? (fun e => decide (e.1 = p))).map (fun e => e.2)

/-- `filepath.exists()`. -/
def pExists (fs : FS) (p : LPath) : Bool := (fsRead fs p).isSome

/-- Scanner for the closing tag of `re.search(r"<h1>.*</h1>", content)`:
after a `<h1>`, look for `</h1>` with no newline (10) in between (`.` in a
Python regex does not match a newline). -/
def findCloseH1 : PyStr → Bool
  | [] => false
  | c :: cs =>
    if (strToCodes "</h1>").isPrefixOf (c :: cs) then true
    else if c = 10 then false
    else findCloseH1 cs

/-- `bool(re.search(r"<h1>.*</h1>", content))`: some position starts
`<h1>`, followed — with no intervening newline — by `</h1>`. -/
def hasH1 : PyStr → Bool
  | [] => false
  | c :: cs =>
    ((strToCodes "<h1>").isPrefixOf (c :: cs) && findCloseH1 ((c :: cs).drop 4))
      || hasH1 cs

/-- Exit codes, lines 30–32 of the source. -/
def ERROR_NO_VALID_LESSON_FILES : Nat := 1

/-- Exit code for a course that is not found (line 31). -/
def ERROR_COURSE_NOT_FOUND : Nat := 2

/-- Exit code for a present-but-empty cache file (line 32). -/
def ERROR_CACHE_FILE_EMPTY : Nat := 3

/-- Terminal outcomes of a run: `sys.exit(code)` and the Python exceptions
the code can raise. -/
inductive RunError where
  /-- `sys.exit(code)`. -/
  | exit (code : Nat)
  /-- `ValueError` raised for a missing Mavenseed URL (lines 369–373). -/
  | valueError
  /-- `FileNotFoundError` from `filepath.open()` on a missing file (line 232). -/
  | fileNotFound (p : LPath)
  /-- `AttributeError` from `lesson.get("id")` on a `Lesson` dataclass (line 460). -/
  | attributeError
  /-- `KeyError` from `cached_data[course_to_update.title]` (line 420). -/
  | keyError
deriving DecidableEq

instance {ε α : Type _} [DecidableEq ε] [DecidableEq α] : DecidableEq (Except ε α) :=
  fun x y =>
    match x, y with
    | .error a, .error b =>
      if h : a = b then .isTrue (by simp [h]) else .isFalse (by simp [h])
    | .ok a, .ok b =>
      if h : a = b then .isTrue (by simp [h]) else .isFalse (by simp [h])
    | .error _, .ok _ => .isFalse (by simp)
    | .ok _, .error _ => .isFalse (by simp)

/-- Lines 226–233, `is_valid_file`: the `exists`/suffix check is computed
first, then the file is opened unconditionally — so a missing file raises
`FileNotFoundError` — and the heading check is conjoined. -/
def is_valid_file (fs : FS) (filepath : LPath) : Except RunError Bool :=
  let is_valid : Bool :=
    pExists fs filepath && decide (pyLower (pySuffix filepath.name) = strToCodes ".html")
  match fsRead fs filepath with
  | none => .error (.fileNotFound filepath)
  | some content => .ok (is_valid && hasH1 content)

/-- Lines 219–235, `validate_lesson_files`: keep the candidates for which
`is_valid_file` holds; the first exception aborts the comprehension. -/
def validate_lesson_files (fs : FS) : List LPath → Except RunError (List LPath)
  | [] => .ok []
  | filepath :: files =>
    match is_valid_file fs filepath with
    | .error e => .error e
    | .ok b =>
      match validate_lesson_files fs files with
      | .error e => .error e
      | .ok rest => .ok (if b then filepath :: rest else rest)

/-- The pure validity predicate of the spec, for files that exist: the path
exists, has a case-insensitive `.html` suffix, and its content contains a
top-level heading. -/
def validSpec (fs : FS) (p : LPath) : Bool :=
  (pExists fs p && decide (pyLower (pySuffix p.name) = strToCodes ".html"))
    && hasH1 ((fsRead fs p).getD [])

/-- The `Course` dataclass returned by the Mavenseed API (lines 80–99). -/
structure Course where
  id : Int
  title : PyStr
  slug : PyStr
  status : PyStr
  created_at : PyStr
  updated_at : PyStr
  scheduled_at : PyStr
  published_at : PyStr
  excerpt : PyStr
  free : Bool
  questions_enabled : Bool
  signin_required : Bool
  view_count : Int
  metadata : List (PyStr × PyStr)
  banner_data : Option Unit
deriving DecidableEq

/-- The `Lesson` dataclass returned by the Mavenseed API (lines 175–196). -/
structure Lesson where
  id : Int
  lessonable_type : PyStr
  lessonable_id : Int
  title : PyStr
  slug : PyStr
  content : PyStr
  status : PyStr
  created_at : PyStr
  updated_at : PyStr
  ordinal : Int
  exercise_votes_threshold : Int
  exercise_type : Int
  free : Bool
  media_type : PyStr
  signin_required : Bool
  metadata : List (PyStr × PyStr)
  embed_data : Option Unit
deriving DecidableEq

/-- A lesson record as serialized to the cache artifact by
`Lesson.to_dict` (lines 197–216): every `Lesson` field except `content`. -/
structure CLesson where
  id : Int
  lessonable_type : PyStr
  lessonable_id : Int
  title : PyStr
  slug : PyStr
  status : PyStr
  created_at : PyStr
  updated_at : PyStr
  ordinal : Int
  exercise_votes_threshold : Int
  exercise_type : Int
  free : Bool
  media_type : PyStr
  signin_required : Bool
  metadata : List (PyStr × PyStr)
  embed_data : Option Unit
deriving DecidableEq

/-- A chapter record in the cache artifact: `Chapter.to_dict` (lines
132–141) plus the `"lessons"` key added at line 356. -/
structure CChapter where
  id : Int
  course_id : Int
  title : PyStr
  content : PyStr
  created_at : PyStr
  updated_at : PyStr
  ordinal : Int
  lessons : List CLesson
deriving DecidableEq

/-- Line 424: `Lesson(**lessons, content="")` — rebuild a `Lesson` from a
cached record, with empty content. -/
def cLessonToLesson (l : CLesson) : Lesson :=
  { id := l.id
    lessonable_type := l.lessonable_type
    lessonable_id := l.lessonable_id
    title := l.title
    slug := l.slug
    content := []
    status := l.status
    created_at := l.created_at
    updated_at := l.updated_at
    ordinal := l.ordinal
    exercise_votes_threshold := l.exercise_votes_threshold
    exercise_type := l.exercise_type
    free := l.free
    media_type := l.media_type
    signin_required := l.signin_required
    metadata := l.metadata
    embed_data := l.embed_data }

/-- The `NewChapter` dataclass (lines 144–148): a chapter to create. -/
structure NewChapter where
  title : PyStr
deriving DecidableEq

/-- The `NewLesson` dataclass (lines 154–159): a lesson to create. -/
structure NewLesson where
  slug : PyStr
  filepath : LPath
deriving DecidableEq

/-- The three operation lists built by the reconciliation loop
(lines 441–443). An element of `lessons_to_update` is the singleton dict
`{lesson_slug: id}` of line 460. -/
structure ReconOutput where
  chapters_to_create : List NewChapter
  lessons_to_create : List NewLesson
  lessons_to_update : List (PyStr × Int)
deriving DecidableEq

/-- Lines 408–411: does the user-given identifier equal the course's title
or its URL slug (`args.course in (course.title, course.slug)`)? -/
def courseMatches (q : PyStr) (course : Course) : Bool :=
  decide (q = course.title) || decide (q = course.slug)

/-- Lines 406–417: select the first course whose title or slug equals the
identifier; `StopIteration` leads to `sys.exit(ERROR_COURSE_NOT_FOUND)`. -/
def resolveCourse (q : PyStr) (courses : List Course) : Except RunError Course :=
  match courses.find? (courseMatches q) with
  | some course => .ok course
  | none => .error (.exit ERROR_COURSE_NOT_FOUND)

/-- Lines 421–424: flatten the cached chapters' lesson records into
`lessons_in_course`. -/
def lessonsInCourse (course_chapters : List CChapter) : List Lesson :=
  course_chapters.foldl (fun acc ch => acc ++ ch.lessons.map cLessonToLesson) []

/-- The `lessons_map` dict: insertion-ordered association list from chapter
name to `(slug, filepath)` pairs. -/
abbrev LessonsMap := List (PyStr × List (PyStr × LPath))

/-- Lines 434–438: `lessons_map.get(chapter_name)` is falsy exactly when the
key is absent (values are never left empty), in which case a fresh bucket is
appended at the end of the dict; then the pair is appended to the bucket. -/
def lessonsMapAdd (m : LessonsMap) (k : PyStr) (v : PyStr × LPath) : LessonsMap :=
  match m.find? (fun kv => decide (kv.1 = k)) with
  | none => m ++ [(k, [v])]
  | some _ => m.map (fun kv => if kv.1 = k then (kv.1, kv.2 ++ [v]) else kv)

/-- Lines 427–438: build `lessons_map` from `args.lesson_files` (the full
command-line list, not the validated subset). -/
def buildLessonsMap (lesson_files : List LPath) : LessonsMap :=
  lesson_files.foldl
    (fun m filepath => lessonsMapAdd m (normalizeChapter filepath.parent) (slugOf filepath, filepath))
    []

/-- Lines 452–460, the inner loop: look up each `(slug, filepath)` pair among
the course's lessons. No match appends a `NewLesson` (line 458); a match
executes line 460, `lessons_to_update.append({lesson_slug: lesson.get("id")})`
— but `lesson` is a `Lesson` dataclass, which has no `get` method, so Python
raises `AttributeError` there. -/
def reconcileLessons (lessons_in_course : List Lesson) :
    List (PyStr × LPath) → Except RunError (List NewLesson × List (PyStr × Int))
  | [] => .ok ([], [])
  | (lesson_slug, filepath) :: rest =>
    match lessons_in_course.find? (fun l => decide (l.slug = lesson_slug)) with
    | none =>
      match reconcileLessons lessons_in_course rest with
      | .error e => .error e
      | .ok (cr, up) => .ok (NewLesson.mk lesson_slug filepath :: cr, up)
    | some _lesson =>
      .error .attributeError

/-- Lines 444–460, the outer loop over `lessons_map`: a chapter name with no
exact-title match among the cached chapters is appended to
`chapters_to_create`; then the chapter's pairs are reconciled. -/
def reconcileAll (course_chapters : List CChapter) (lessons_in_course : List Lesson) :
    LessonsMap → Except RunError ReconOutput
  | [] => .ok ⟨[], [], []⟩
  | (chapter_name, items) :: rest =>
    let new_chapters : List NewChapter :=
      match course_chapters.find? (fun c => decide (c.title = chapter_name)) with
      | none => [NewChapter.mk chapter_name]
      | some _ => []
    match reconcileLessons lessons_in_course items with
    | .error e => .error e
    | .ok (cr, up) =>
      match reconcileAll course_chapters lessons_in_course rest with
      | .error e => .error e
      | .ok r =>
        .ok ⟨new_chapters ++ r.chapters_to_create,
             cr ++ r.lessons_to_create,
             up ++ r.lessons_to_update⟩

/-- The inputs `main` works from once the network collaborators have
answered: the local filesystem, the parsed command line, the loaded cache
artifact (`json.load(CACHE_FILE)`), and the remote course listing. -/
structure RunInput where
  mavenseed_url : PyStr
  fs : FS
  course : PyStr
  lesson_files : List LPath
  list_courses : Bool
  cached_data : List (PyStr × List CChapter)
  courses : List Course

/-- `cached_data[course_to_update.title]` (line 420): dict indexing, which
raises `KeyError` when the key is absent. -/
def cacheLookup (cached_data : List (PyStr × List CChapter)) (k : PyStr) :
    Option (List CChapter) :=
  (cached_data.find? (fun kv => decide (kv.1 = k))).map (fun kv => kv.2)

/-- Lines 366–460, `main`, in source order: the URL check (`ValueError`),
validation, the no-valid-files exit, the empty-cache exit, the
`--list-courses` short-circuit (`sys.exit(0)`), course resolution, the cache
lookup for the resolved course, and the reconciliation loop. Network-only
steps (login, cache download) have no bearing on the produced lists and are
represented by `RunInput`'s fields. -/
def mainRun (inp : RunInput) : Except RunError ReconOutput :=
  if inp.mavenseed_url = [] then .error .valueError
  else
    match validate_lesson_files inp.fs inp.lesson_files with
    | .error e => .error e
    | .ok valid_files =>
      if valid_files.length = 0 then .error (.exit ERROR_NO_VALID_LESSON_FILES)
      else if inp.cached_data = [] then .error (.exit ERROR_CACHE_FILE_EMPTY)
      else if inp.list_courses then .error (.exit 0)
      else
        match resolveCourse inp.course inp.courses with
        | .error e => .error e
        | .ok course_to_update =>
          match cacheLookup inp.cached_data course_to_update.title with
          | none => .error .keyError
          | some course_chapters =>
            reconcileAll course_chapters (lessonsInCourse course_chapters)
              (buildLessonsMap inp.lesson_files)

/-- Lines 315–337, `get_all_lessons` inside `cache_all_courses`: starting at
page 0, fetch a page, stop when it is empty, otherwise yield it and continue
with the next page. `pages` is the remote API's response per page index. The
`while True` loop is embedded with explicit fuel: `none` means the fuel ran
out before an empty page was seen. -/
def lessonsLoopFuel (pages : Nat → List Lesson) (page : Nat) : Nat → Option (List (List Lesson))
  | 0 => none
  | fuel + 1 =>
    if pages page = [] then some []
    else (lessonsLoopFuel pages (page + 1) fuel).map (fun rest => pages page :: rest)

/-! ## Concrete data used by the witnesses and counterexamples -/

/-- A non-empty Mavenseed URL for concrete runs. -/
def urlDemo : PyStr := strToCodes "https://example.com"

/-- A remote course titled `Intro` with URL slug `intro-101`. -/
def introCourse : Course :=
  { id := 1
    title := strToCodes "Intro"
    slug := strToCodes "intro-101"
    status := strToCodes "published"
    created_at := []
    updated_at := []
    scheduled_at := []
    published_at := []
    excerpt := []
    free := false
    questions_enabled := false
    signin_required := false
    view_count := 0
    metadata := []
    banner_data := none }

/-- A cached lesson record with the given id and slug. -/
def clessonOf (id : Int) (slug : String) : CLesson :=
  { id := id
    lessonable_type := strToCodes "Chapter"
    lessonable_id := 11
    title := strToCodes slug
    slug := strToCodes slug
    status := strToCodes "published"
    created_at := []
    updated_at := []
    ordinal := 0
    exercise_votes_threshold := 0
    exercise_type := 0
    free := false
    media_type := strToCodes "text"
    signin_required := false
    metadata := []
    embed_data := none }

/-- A cached chapter record with the given title and lessons. -/
def cchapterOf (title : String) (lessons : List CLesson) : CChapter :=
  { id := 11
    course_id := 1
    title := strToCodes title
    content := []
    created_at := []
    updated_at := []
    ordinal := 0
    lessons := lessons }

/-- A valid local lesson file `lessons/intro.html`. -/
def pIntro : LPath := ⟨strToCodes "lessons", strToCodes "intro.html"⟩

/-- Run input for C1: one validated file whose slug `intro` matches a remote
lesson of the target course. -/
def inp1 : RunInput :=
  { mavenseed_url := urlDemo
    fs := [(pIntro, strToCodes "<h1>Intro</h1>")]
    course := strToCodes "Intro"
    lesson_files := [pIntro]
    list_courses := false
    cached_data := [(strToCodes "Intro", [cchapterOf "Getting started" [clessonOf 7 "intro"]])]
    courses := [introCourse] }

/-- A local file `lessons/intro-to-x.html`. -/
def pX : LPath := ⟨strToCodes "lessons", strToCodes "intro-to-x.html"⟩

/-- A remote lesson with slug `intro-to-x` and id 42, as rebuilt from the
cache at line 424. -/
def lessonX : Lesson := cLessonToLesson (clessonOf 42 "intro-to-x")

/-- A local file `01-basics/a.html`. -/
def pA : LPath := ⟨strToCodes "01-basics", strToCodes "a.html"⟩

/-- Run input for C3 (the spec's own scenario): course `Intro` cached with
one chapter and zero lessons, one local file `a.html` under `01-basics`. -/
def inp3 : RunInput :=
  { mavenseed_url := urlDemo
    fs := [(pA, strToCodes "<h1>A</h1>")]
    course := strToCodes "Intro"
    lesson_files := [pA]
    list_courses := false
    cached_data := [(strToCodes "Intro", [cchapterOf "Getting started" []])]
    courses := [introCourse] }

/-- What the run of `inp3` actually produces: the chapter to create is
titled `01 basics` (the ordinal is not stripped), and `a.html` goes to
lessons-to-create. -/
def out3 : ReconOutput :=
  ⟨[⟨strToCodes "01 basics"⟩], [⟨strToCodes "a", pA⟩], []⟩

/-- A valid local file `lessons/good.html`. -/
def pGoodD : LPath := ⟨strToCodes "lessons", strToCodes "good.html"⟩

/-- An existing but invalid candidate `lessons/notes.txt` (wrong suffix). -/
def pNotesD : LPath := ⟨strToCodes "lessons", strToCodes "notes.txt"⟩

/-- Filesystem holding `good.html` and `notes.txt`, both with a heading. -/
def fsD : FS :=
  [(pGoodD, strToCodes "<h1>G</h1>"), (pNotesD, strToCodes "<h1>N</h1>")]

/-- A candidate path present on no filesystem used here. -/
def ghostPath : LPath := ⟨strToCodes "lessons", strToCodes "ghost.html"⟩

/-- Run input for the C10 counterexample: validation passes only
`good.html`, but reconciliation still processes `notes.txt`, whose slug
`notes` matches a remote lesson — triggering the line-460 crash. -/
def inpD : RunInput :=
  { mavenseed_url := urlDemo
    fs := fsD
    course := strToCodes "Intro"
    lesson_files := [pGoodD, pNotesD]
    list_courses := false
    cached_data := [(strToCodes "Intro", [cchapterOf "Getting started" [clessonOf 9 "notes"]])]
    courses := [introCourse] }

/-- An existing but invalid candidate `01-basics/notes.txt`. -/
def pNotesW : LPath := ⟨strToCodes "01-basics", strToCodes "notes.txt"⟩

/-- Run input for the C10 witness: a valid file and an invalid one, no
remote slug matches, so the run completes. -/
def inpW : RunInput :=
  { mavenseed_url := urlDemo
    fs := [(pA, strToCodes "<h1>A</h1>"), (pNotesW, strToCodes "<h1>N</h1>")]
    course := strToCodes "Intro"
    lesson_files := [pA, pNotesW]
    list_courses := false
    cached_data := [(strToCodes "Intro", [cchapterOf "Getting started" []])]
    courses := [introCourse] }

/-- The output of the `inpW` run: both input files — the invalid
`notes.txt` included — are classified into lessons-to-create. -/
def outW : ReconOutput :=
  ⟨[⟨strToCodes "01 basics"⟩],
   [⟨strToCodes "a", pA⟩, ⟨strToCodes "notes", pNotesW⟩],
   []⟩

/-- An existing `.html` file with no `<h1>` heading. -/
def pNoH1 : LPath := ⟨strToCodes "lessons", strToCodes "x.html"⟩

/-- Run input where validation succeeds but yields no valid files. -/
def inpNoValid : RunInput :=
  { mavenseed_url := urlDemo
    fs := [(pNoH1, strToCodes "<p>x</p>")]
    course := strToCodes "Intro"
    lesson_files := [pNoH1]
    list_courses := false
    cached_data := [(strToCodes "Intro", [cchapterOf "Getting started" []])]
    courses := [introCourse] }

/-- Run input with a valid file but an empty (present) cache artifact. -/
def inpEmptyCache : RunInput :=
  { mavenseed_url := urlDemo
    fs := [(pA, strToCodes "<h1>A</h1>")]
    course := strToCodes "Intro"
    lesson_files := [pA]
    list_courses := false
    cached_data := []
    courses := [introCourse] }

/-- Run input whose course identifier matches no remote course. -/
def inpNoCourse : RunInput :=
  { mavenseed_url := urlDemo
    fs := [(pA, strToCodes "<h1>A</h1>")]
    course := strToCodes "missing"
    lesson_files := [pA]
    list_courses := false
    cached_data := [(strToCodes "Intro", [cchapterOf "Getting started" []])]
    courses := [introCourse] }

/-- A remote lesson used by the pagination witness. -/
def lessonPage : Lesson := cLessonToLesson (clessonOf 1 "page-lesson")

/-- A remote lesson listing with exactly two non-empty pages. -/
def pagesDemo : Nat → List Lesson := fun n => if n < 2 then [lessonPage] else []

/-! ## Helper lemmas about the string operations -/

/-- On a dot-free input, the `\\d+\\.` substitution emits everything unchanged. -/
theorem subDDAux_no_dot :
    ∀ (s pending : PyStr), (46 : Nat) ∉ s → subDDAux pending s = pending ++ s := by
  intro s
  induction s with
  | nil => intro pending _; simp [subDDAux]
  | cons c cs ih =>
    intro pending h
    have hc : c ≠ 46 := fun hx => h (by simp [hx])
    have hcs : (46 : Nat) ∉ cs := fun hx => h (by simp [hx])
    rw [subDDAux]
    by_cases hd : isDigitCp c = true
    · rw [if_pos hd, ih (pending ++ [c]) hcs]
      simp
    · rw [if_neg hd, if_neg hc, ih [] hcs]
      simp

/-- `re.sub(r"\\d+\\.", "", s)` is the identity when `s` contains no dot. -/
theorem subDigitsDot_no_dot (s : PyStr) (h : (46 : Nat) ∉ s) : subDigitsDot s = s := by
  unfold subDigitsDot
  rw [subDDAux_no_dot s [] h]
  simp

/-- Separator replacement leaves no separator (in particular, no dot). -/
theorem replaceSeps_no_sep (s : PyStr) : ∀ c ∈ replaceSeps s, ¬ isSep c := by
  intro c hc
  obtain ⟨d, _, rfl⟩ := List.mem_map.mp hc
  by_cases hd : isSep d
  · rw [if_pos hd]; decide
  · rw [if_neg hd]; exact hd

/-- Separator replacement leaves no dot. -/
theorem not_dot_mem_replaceSeps (s : PyStr) : (46 : Nat) ∉ replaceSeps s := by
  intro h
  exact replaceSeps_no_sep s 46 h (Or.inr (Or.inl rfl))

/-- Because line 430 has already replaced every dot by a space, the
ordinal-stripping substitution of line 431 never fires: the chapter name is
just the separator-replaced folder name, capitalized. -/
theorem normalizeChapter_eq (s : PyStr) :
    normalizeChapter s = pyCapitalize (replaceSeps s) := by
  unfold normalizeChapter
  rw [subDigitsDot_no_dot _ (not_dot_mem_replaceSeps s)]

/-- Uppercasing preserves not-being-a-separator. -/
theorem pyUpperChar_not_sep (c : Nat) (h : ¬ isSep c) : ¬ isSep (pyUpperChar c) := by
  simp only [pyUpperChar, isSep] at *
  split_ifs <;> omega

/-- Lowercasing preserves not-being-a-separator. -/
theorem pyLowerChar_not_sep (c : Nat) (h : ¬ isSep c) : ¬ isSep (pyLowerChar c) := by
  simp only [pyLowerChar, isSep] at *
  split_ifs <;> omega

/-- Capitalization preserves separator-freedom. -/
theorem pyCapitalize_no_sep (l : PyStr) (h : ∀ c ∈ l, ¬ isSep c) :
    ∀ c ∈ pyCapitalize l, ¬ isSep c := by
  cases l with
  | nil => simp [pyCapitalize]
  | cons d ds =>
    intro c hc
    rw [pyCapitalize] at hc
    rcases List.mem_cons.mp hc with rfl | hmem
    · exact pyUpperChar_not_sep d (h d (by simp))
    · obtain ⟨e, he, rfl⟩ := List.mem_map.mp hmem
      exact pyLowerChar_not_sep e (h e (by simp [he]))

/-- A derived chapter name contains no separator character. -/
theorem normalizeChapter_no_sep (s : PyStr) : ∀ c ∈ normalizeChapter s, ¬ isSep c := by
  rw [normalizeChapter_eq]
  exact pyCapitalize_no_sep _ (replaceSeps_no_sep s)

/-- Separator replacement fixes a separator-free string. -/
theorem replaceSeps_eq_self (l : PyStr) (h : ∀ c ∈ l, ¬ isSep c) : replaceSeps l = l := by
  unfold replaceSeps
  induction l with
  | nil => rfl
  | cons c cs ih =>
    rw [List.map_cons, if_neg (h c (by simp)), ih (fun d hd => h d (by simp [hd]))]

/-- Uppercasing is idempotent. -/
theorem pyUpperChar_idem (c : Nat) : pyUpperChar (pyUpperChar c) = pyUpperChar c := by
  simp only [pyUpperChar]
  split_ifs <;> omega

/-- Lowercasing is idempotent. -/
theorem pyLowerChar_idem (c : Nat) : pyLowerChar (pyLowerChar c) = pyLowerChar c := by
  simp only [pyLowerChar]
  split_ifs <;> omega

/-- Lowercasing a list of characters is idempotent. -/
theorem pyLower_idem (l : PyStr) : pyLower (pyLower l) = pyLower l := by
  unfold pyLower
  rw [List.map_map]
  have hfun : pyLowerChar ∘ pyLowerChar = pyLowerChar := funext pyLowerChar_idem
  rw [hfun]

/-- Python `str.capitalize()` is idempotent. -/
theorem pyCapitalize_idem (l : PyStr) : pyCapitalize (pyCapitalize l) = pyCapitalize l := by
  cases l with
  | nil => rfl
  | cons c cs =>
    simp only [pyCapitalize]
    rw [pyUpperChar_idem, pyLower_idem]

/-! ## Helper lemmas about list search and validation -/

/-- A successful `find?` returns a satisfying element, and everything before
it fails the predicate (Python\'s `next(filter(...))` is first-match). -/
theorem find?_split {α : Type _} (p : α → Bool) :
    ∀ (l : List α) (a : α), l.find? p = some a →
      p a = true ∧ ∃ pre post, l = pre ++ a :: post ∧ ∀ x ∈ pre, p x = false := by
  intro l
  induction l with
  | nil => intro a h; simp at h
  | cons b t ih =>
    intro a h
    by_cases hb : p b = true
    · rw [List.find?_cons_of_pos _ hb] at h
      have hba : b = a := by injection h
      subst hba
      exact ⟨hb, [], t, rfl, by simp⟩
    · have hb2 : p b = false := by simpa using hb
      rw [List.find?_cons_of_neg _ (by simp [hb2])] at h
      obtain ⟨hpa, pre, post, rfl, hpre⟩ := ih a h
      refine ⟨hpa, b :: pre, post, rfl, ?_⟩
      intro x hx
      rcases List.mem_cons.mp hx with rfl | hx2
      · exact hb2
      · exact hpre x hx2

/-- If no element satisfies the predicate, `find?` returns `none`. -/
theorem find?_none_of {α : Type _} (p : α → Bool) :
    ∀ (l : List α), (∀ x ∈ l, p x = false) → l.find? p = none := by
  intro l
  induction l with
  | nil => intro _; rfl
  | cons a t ih =>
    intro h
    rw [List.find?_cons_of_neg _ (by simp [h a (by simp)])]
    exact ih (fun x hx => h x (by simp [hx]))

/-- When every candidate exists on disk, `validate_lesson_files` returns the
filter of the candidates by the validity predicate of the spec. -/
theorem validate_of_all_exist (fs : FS) :
    ∀ (files : List LPath), (∀ p ∈ files, (fsRead fs p).isSome = true) →
      validate_lesson_files fs files = .ok (files.filter (validSpec fs)) := by
  intro files
  induction files with
  | nil => intro _; rfl
  | cons p ps ih =>
    intro h
    have hp : (fsRead fs p).isSome = true := h p (by simp)
    obtain ⟨c, hc⟩ := Option.isSome_iff_exists.mp hp
    have hrest := ih (fun q hq => h q (by simp [hq]))
    rw [validate_lesson_files, is_valid_file]
    simp only [hc, hrest]
    rw [List.filter_cons]
    simp only [validSpec, hc, Option.getD_some]

/-! ## Helper lemmas about the pagination loop -/

/-- With enough fuel, the pagination loop starting at page `p` returns
exactly the pages `p, p+1, …` up to (excluding) the first empty page. -/
theorem lessonsLoopFuel_spec (pages : Nat → List Lesson) :
    ∀ (fuel p k : Nat), pages (p + k) = [] → (∀ i, i < k → pages (p + i) ≠ []) →
      k < fuel →
      lessonsLoopFuel pages p fuel = some ((List.range k).map (fun i => pages (p + i))) := by
  intro fuel
  induction fuel with
  | zero => intro p k _ _ hk; omega
  | succ f ih =>
    intro p k hk hlt hkf
    rw [lessonsLoopFuel]
    cases k with
    | zero =>
      have hp : pages p = [] := by simpa using hk
      simp [hp]
    | succ j =>
      have hp : pages p ≠ [] := by simpa using hlt 0 (by omega)
      rw [if_neg hp]
      have hrec := ih (p + 1) j
        (by rw [show p + 1 + j = p + (j + 1) by omega]; exact hk)
        (fun i hi => by
          rw [show p + 1 + i = p + (i + 1) by omega]
          exact hlt (i + 1) (by omega))
        (by omega)
      rw [hrec]
      simp only [Option.map_some']
      have hlist : (List.range (j + 1)).map (fun i => pages (p + i))
          = pages p :: (List.range j).map (fun i => pages (p + 1 + i)) := by
        rw [List.range_succ_eq_map, List.map_cons, List.map_map]
        have hfun : ((fun i => pages (p + i)) ∘ Nat.succ) = (fun i => pages (p + 1 + i)) :=
          funext fun i => by
            rw [Function.comp_apply, show p + Nat.succ i = p + 1 + i by omega]
        rw [hfun]
        simp
      rw [hlist]

/-- If no page is ever empty, the loop never terminates: every finite fuel
is exhausted. -/
theorem lessonsLoopFuel_none (pages : Nat → List Lesson) (hne : ∀ n, pages n ≠ []) :
    ∀ (fuel p : Nat), lessonsLoopFuel pages p fuel = none := by
  intro fuel
  induction fuel with
  | zero => intro _; rfl
  | succ f ih =>
    intro p
    rw [lessonsLoopFuel, if_neg (hne p), ih (p + 1)]
    rfl

/-! ## Helper lemmas about the lessons map and the reconciliation loop -/

/-- All `(slug, filepath)` pairs stored in a lessons map, across buckets. -/
def mapPairs (m : LessonsMap) : List (PyStr × LPath) :=
  (m.map (fun kv => kv.2)).flatten

/-- Membership in `mapPairs` is membership in some bucket. -/
theorem mem_mapPairs {m : LessonsMap} {x : PyStr × LPath} :
    x ∈ mapPairs m ↔ ∃ kv ∈ m, x ∈ kv.2 := by
  unfold mapPairs
  rw [List.mem_flatten]
  constructor
  · rintro ⟨l, hl, hx⟩
    obtain ⟨kv, hkv, rfl⟩ := List.mem_map.mp hl
    exact ⟨kv, hkv, hx⟩
  · rintro ⟨kv, hkv, hx⟩
    exact ⟨kv.2, List.mem_map.mpr ⟨kv, hkv, rfl⟩, hx⟩

/-- Pairs of the head bucket, then pairs of the rest. -/
theorem mapPairs_cons (kv : PyStr × List (PyStr × LPath)) (rest : LessonsMap) :
    mapPairs (kv :: rest) = kv.2 ++ mapPairs rest := by
  simp [mapPairs]

/-- The pair just inserted is among the map\'s pairs. -/
theorem mem_mapPairs_add {m : LessonsMap} {k : PyStr} {v : PyStr × LPath} :
    v ∈ mapPairs (lessonsMapAdd m k v) := by
  unfold lessonsMapAdd
  cases hf : m.find? (fun kv => decide (kv.1 = k)) with
  | none =>
    rw [mem_mapPairs]
    exact ⟨(k, [v]), by simp, by simp⟩
  | some e =>
    have he : e.1 = k := by
      have h0 := List.find?_some hf
      simpa using h0
    have hin : e ∈ m := List.mem_of_find?_eq_some hf
    rw [mem_mapPairs]
    refine ⟨(e.1, e.2 ++ [v]), ?_, by simp⟩
    refine List.mem_map.mpr ⟨e, hin, ?_⟩
    rw [if_pos he]

/-- Insertion preserves the pairs already present. -/
theorem mem_mapPairs_add_mono {m : LessonsMap} {k : PyStr} {v x : PyStr × LPath}
    (h : x ∈ mapPairs m) : x ∈ mapPairs (lessonsMapAdd m k v) := by
  unfold lessonsMapAdd
  cases hf : m.find? (fun kv => decide (kv.1 = k)) with
  | none =>
    rw [mem_mapPairs] at h ⊢
    obtain ⟨kv, hkv, hx⟩ := h
    exact ⟨kv, by simp [hkv], hx⟩
  | some e =>
    rw [mem_mapPairs] at h ⊢
    obtain ⟨kv, hkv, hx⟩ := h
    by_cases hk : kv.1 = k
    · exact ⟨(kv.1, kv.2 ++ [v]), List.mem_map.mpr ⟨kv, hkv, by rw [if_pos hk]⟩, by simp [hx]⟩
    · exact ⟨kv, List.mem_map.mpr ⟨kv, hkv, by rw [if_neg hk]⟩, hx⟩

/-- Folding further insertions preserves the pairs already present. -/
theorem mem_mapPairs_foldl_mono (files : List LPath) :
    ∀ (m : LessonsMap) (x : PyStr × LPath), x ∈ mapPairs m →
      x ∈ mapPairs (files.foldl
        (fun acc q => lessonsMapAdd acc (normalizeChapter q.parent) (slugOf q, q)) m) := by
  induction files with
  | nil => intro m x h; exact h
  | cons g t ih =>
    intro m x h
    simp only [List.foldl_cons]
    exact ih _ x (mem_mapPairs_add_mono h)

/-- Every file of a list contributes its `(slug, filepath)` pair when the
list is folded into a lessons map, whatever the initial map. -/
theorem mem_mapPairs_foldl (files : List LPath) :
    ∀ (m : LessonsMap) (fp : LPath), fp ∈ files →
      (slugOf fp, fp) ∈ mapPairs (files.foldl
        (fun acc q => lessonsMapAdd acc (normalizeChapter q.parent) (slugOf q, q)) m) := by
  induction files with
  | nil => intro m fp h; simp at h
  | cons g t ih =>
    intro m fp h
    simp only [List.foldl_cons]
    rcases List.mem_cons.mp h with rfl | ht
    · exact mem_mapPairs_foldl_mono t _ _ mem_mapPairs_add
    · exact ih _ fp ht

/-- Every file of the input list contributes its `(slug, filepath)` pair to
the lessons map built at lines 427–438 — the full command-line list feeds
the map, validated or not. -/
theorem mem_buildLessonsMap (files : List LPath) (fp : LPath) (h : fp ∈ files) :
    (slugOf fp, fp) ∈ mapPairs (buildLessonsMap files) :=
  mem_mapPairs_foldl files [] fp h

/-- A successful inner loop means no slug matched: every pair became a
`NewLesson` (in order) and nothing was appended to `lessons_to_update`. -/
theorem reconcileLessons_ok (lic : List Lesson) :
    ∀ (items : List (PyStr × LPath)) (cr : List NewLesson) (up : List (PyStr × Int)),
      reconcileLessons lic items = .ok (cr, up) →
      cr = items.map (fun sv => NewLesson.mk sv.1 sv.2) ∧ up = [] := by
  intro items
  induction items with
  | nil =>
    intro cr up h
    rw [reconcileLessons] at h
    simp at h
    simp_all
  | cons sv rest ih =>
    intro cr up h
    obtain ⟨s, v⟩ := sv
    rw [reconcileLessons] at h
    cases hf : lic.find? (fun l => decide (l.slug = s)) with
    | some e => rw [hf] at h; simp at h
    | none =>
      rw [hf] at h
      cases hr : reconcileLessons lic rest with
      | error e => rw [hr] at h; simp at h
      | ok pr =>
        obtain ⟨cr2, up2⟩ := pr
        rw [hr] at h
        simp at h
        obtain ⟨hcr, hup⟩ := h
        obtain ⟨ih1, ih2⟩ := ih cr2 up2 hr
        subst hcr
        subst hup
        rw [List.map_cons]
        exact ⟨by rw [ih1], ih2⟩

/-- A successful outer loop puts every pair of the lessons map into
`lessons_to_create` and leaves `lessons_to_update` empty. -/
theorem reconcileAll_ok (cc : List CChapter) (lic : List Lesson) :
    ∀ (m : LessonsMap) (r : ReconOutput), reconcileAll cc lic m = .ok r →
      (∀ x ∈ mapPairs m, NewLesson.mk x.1 x.2 ∈ r.lessons_to_create) ∧
      r.lessons_to_update = [] := by
  intro m
  induction m with
  | nil =>
    intro r h
    rw [reconcileAll] at h
    simp at h
    subst h
    exact ⟨by simp [mapPairs], rfl⟩
  | cons kv rest ih =>
    intro r h
    obtain ⟨cname, items⟩ := kv
    rw [reconcileAll] at h
    cases hl : reconcileLessons lic items with
    | error e => rw [hl] at h; simp at h
    | ok pr =>
      obtain ⟨cr, up⟩ := pr
      rw [hl] at h
      cases hr : reconcileAll cc lic rest with
      | error e => rw [hr] at h; simp at h
      | ok r2 =>
        rw [hr] at h
        simp at h
        obtain ⟨hcr, hup⟩ := reconcileLessons_ok lic items cr up hl
        obtain ⟨ihmem, ihup⟩ := ih r2 hr
        subst h
        constructor
        · intro x hx
          rw [mapPairs_cons] at hx
          rcases List.mem_append.mp hx with h1 | h2
          · refine List.mem_append.mpr (Or.inl ?_)
            rw [hcr]
            exact List.mem_map.mpr ⟨x, h1, rfl⟩
          · exact List.mem_append.mpr (Or.inr (ihmem x h2))
        · simp [hup, ihup]

/-! ## The claims -/

/-- Claim C1 (code bug): the claim says every validated file lands in exactly
one of lessons-to-create / lessons-to-update; in fact, as soon as a
validated file\'s slug matches a remote lesson, line 460 evaluates
`lesson.get("id")` on a `Lesson` dataclass — which has no `get` method — and
the run dies with an `AttributeError`, so the file lands in neither list.
Here `lessons/intro.html` passes validation, its slug `intro` matches the
cached remote lesson, and the whole run errors. -/
theorem c1_validated_match_crashes :
    validate_lesson_files inp1.fs inp1.lesson_files = .ok [pIntro] ∧
    mainRun inp1 = .error .attributeError := by decide

/-- Claim C2 (code bug): the claim says a slug match adds a
`(slug, remote-lesson-id)` entry to lessons-to-update; in fact the matching
branch (line 460) raises `AttributeError` instead of appending. Here the
remote lesson with slug `intro-to-x` (id 42) is found by the filter, and the
inner loop errors rather than producing the update entry. -/
theorem c2_update_append_crashes :
    [lessonX].find? (fun l => decide (l.slug = strToCodes "intro-to-x")) = some lessonX ∧
    reconcileLessons [lessonX] [(strToCodes "intro-to-x", pX)] = .error .attributeError := by
  decide

/-- Claim C3, counterexample: the folder name `01-basics` does not normalize
to `Basics` — it normalizes to `01 basics`, because line 430 replaces every
dot by a space before the ordinal-stripping regex of line 431 runs (and
`01-basics` has no `digits+dot` prefix to begin with). -/
theorem c3_ordinal_strip_counterexample :
    normalizeChapter (strToCodes "01-basics") = strToCodes "01 basics" ∧
    ¬ normalizeChapter (strToCodes "01-basics") = strToCodes "Basics" := by decide

/-- Claim C3, amended: for every folder name, chapter grouping replaces
`-`, `_`, `.` with spaces and capitalizes; the digits+dot strip is a no-op
(every dot is already gone). The folder `01-basics` yields a
chapters-to-create entry titled exactly `01 basics` in the spec\'s scenario
(course `Intro` cached with one chapter and zero lessons, one file
`01-basics/a.html`). -/
theorem c3_chapter_normalization :
    (∀ s : PyStr, normalizeChapter s = pyCapitalize (replaceSeps s)) ∧
    mainRun inp3 = .ok out3 :=
  ⟨normalizeChapter_eq, by decide⟩

/-- Witness for C3: the amended normalization law applied at `02.advanced`. -/
theorem c3_chapter_normalization_witness :
    normalizeChapter (strToCodes "02.advanced")
      = pyCapitalize (replaceSeps (strToCodes "02.advanced")) :=
  c3_chapter_normalization.1 (strToCodes "02.advanced")

/-- Claim C4 (code bug): when every candidate exists, `validate_lesson_files`
returns exactly the subset satisfying the spec\'s validity predicate
(exists ∧ `.html` suffix case-insensitively ∧ top-level heading); but a
nonexistent candidate is not "excluded and reported" — `filepath.open()` at
line 232 runs unconditionally and raises `FileNotFoundError`. -/
theorem c4_validate_contract :
    (∀ (fs : FS) (files : List LPath), (∀ p ∈ files, (fsRead fs p).isSome = true) →
      validate_lesson_files fs files = .ok (files.filter (validSpec fs))) ∧
    validate_lesson_files fsD [ghostPath] = .error (.fileNotFound ghostPath) :=
  ⟨validate_of_all_exist, by decide⟩

/-- Witness for C4: on the concrete filesystem `fsD`, validation keeps
`good.html` and drops `notes.txt`. -/
theorem c4_validate_contract_witness :
    validate_lesson_files fsD [pGoodD, pNotesD] = .ok [pGoodD] := by
  have h := c4_validate_contract.1 fsD [pGoodD, pNotesD] (by decide)
  rw [h]
  decide

/-- Claim C5 (confirmed): course resolution returns the first course whose
title or URL slug exactly equals the query; when nothing matches, the run
terminates with the `course not found` exit; and for the course
`{title: Intro, slug: intro-101}` both queries resolve the same course. -/
theorem c5_course_resolution (q : PyStr) (cs : List Course) :
    (∀ course, resolveCourse q cs = .ok course →
      courseMatches q course = true ∧
      ∃ pre post, cs = pre ++ course :: post ∧ ∀ c ∈ pre, courseMatches q c = false) ∧
    ((∀ c ∈ cs, courseMatches q c = false) →
      resolveCourse q cs = .error (.exit ERROR_COURSE_NOT_FOUND)) ∧
    (resolveCourse (strToCodes "Intro") [introCourse] = .ok introCourse ∧
     resolveCourse (strToCodes "intro-101") [introCourse] = .ok introCourse) := by
  refine ⟨?_, ?_, by decide, by decide⟩
  · intro course h
    unfold resolveCourse at h
    cases hf : cs.find? (courseMatches q) with
    | none => rw [hf] at h; simp at h
    | some c =>
      rw [hf] at h
      simp at h
      subst h
      exact find?_split (courseMatches q) cs c hf
  · intro hall
    unfold resolveCourse
    rw [find?_none_of _ cs hall]

/-- Witness for C5: a query matching neither title nor slug exits with the
course-not-found signal. -/
theorem c5_course_resolution_witness :
    resolveCourse (strToCodes "nope") [introCourse]
      = .error (.exit ERROR_COURSE_NOT_FOUND) :=
  (c5_course_resolution (strToCodes "nope") [introCourse]).2.1 (by decide)

/-- Claim C6 (confirmed): the three fatal conditions exit immediately with
pairwise-distinct signals — no valid lesson files (1), course not found (2),
cache present but empty (3) — in the order the source checks them. -/
theorem c6_exit_conditions :
    (ERROR_NO_VALID_LESSON_FILES ≠ ERROR_COURSE_NOT_FOUND ∧
     ERROR_NO_VALID_LESSON_FILES ≠ ERROR_CACHE_FILE_EMPTY ∧
     ERROR_COURSE_NOT_FOUND ≠ ERROR_CACHE_FILE_EMPTY) ∧
    (∀ inp : RunInput, inp.mavenseed_url ≠ [] →
      validate_lesson_files inp.fs inp.lesson_files = .ok [] →
      mainRun inp = .error (.exit ERROR_NO_VALID_LESSON_FILES)) ∧
    (∀ (inp : RunInput) (vf : List LPath), inp.mavenseed_url ≠ [] →
      validate_lesson_files inp.fs inp.lesson_files = .ok vf → vf ≠ [] →
      inp.cached_data = [] →
      mainRun inp = .error (.exit ERROR_CACHE_FILE_EMPTY)) ∧
    (∀ (inp : RunInput) (vf : List LPath), inp.mavenseed_url ≠ [] →
      validate_lesson_files inp.fs inp.lesson_files = .ok vf → vf ≠ [] →
      inp.cached_data ≠ [] → inp.list_courses = false →
      (∀ c ∈ inp.courses, courseMatches inp.course c = false) →
      mainRun inp = .error (.exit ERROR_COURSE_NOT_FOUND)) := by
  refine ⟨by decide, ?_, ?_, ?_⟩
  · intro inp hurl hval
    simp [mainRun, hurl, hval]
  · intro inp vf hurl hval hne hcache
    simp [mainRun, hurl, hval, hcache, List.length_eq_zero, hne]
  · intro inp vf hurl hval hne hcache hlist hmatch
    have hres : resolveCourse inp.course inp.courses
        = .error (.exit ERROR_COURSE_NOT_FOUND) := by
      unfold resolveCourse
      rw [find?_none_of _ inp.courses hmatch]
    simp [mainRun, hurl, hval, List.length_eq_zero, hne, hcache, hlist, hres]

/-- Witness for C6: one concrete run per fatal condition, each exiting with
its own signal. -/
theorem c6_exit_conditions_witness :
    mainRun inpNoValid = .error (.exit ERROR_NO_VALID_LESSON_FILES) ∧
    mainRun inpEmptyCache = .error (.exit ERROR_CACHE_FILE_EMPTY) ∧
    mainRun inpNoCourse = .error (.exit ERROR_COURSE_NOT_FOUND) :=
  ⟨c6_exit_conditions.2.1 inpNoValid (by decide) (by decide),
   c6_exit_conditions.2.2.1 inpEmptyCache [pA] (by decide) (by decide) (by decide) (by decide),
   c6_exit_conditions.2.2.2 inpNoCourse [pA] (by decide) (by decide) (by decide) (by decide)
     (by decide) (by decide)⟩

/-- Claim C7 (confirmed): the pagination loop requests pages in increasing
order starting at 0 and stops exactly at the first empty page: it returns
every page before the first empty one, regardless of the (sufficient) fuel
bound; and if no page is ever empty it never terminates — so termination
depends only on the empty-page condition, not on an iteration count. -/
theorem c7_pagination (pages : Nat → List Lesson) (k fuel : Nat)
    (hk : pages k = []) (hlt : ∀ i, i < k → pages i ≠ []) (hf : k < fuel) :
    lessonsLoopFuel pages 0 fuel = some ((List.range k).map pages) ∧
    (∀ pages2 : Nat → List Lesson, (∀ n, pages2 n ≠ []) →
      ∀ fuel2, lessonsLoopFuel pages2 0 fuel2 = none) := by
  constructor
  · have h := lessonsLoopFuel_spec pages fuel 0 k (by simpa using hk)
      (fun i hi => by simpa using hlt i hi) hf
    simpa using h
  · intro pages2 h2 fuel2
    exact lessonsLoopFuel_none pages2 h2 fuel2 0

/-- Witness for C7: a listing with two non-empty pages yields exactly those
two pages. -/
theorem c7_pagination_witness :
    lessonsLoopFuel pagesDemo 0 3 = some ((List.range 2).map pagesDemo) :=
  (c7_pagination pagesDemo 2 3 (by decide) (by decide) (by decide)).1

/-- Claim C8 (confirmed): the slug is the filename stem lower-cased with
spaces turned into hyphens, and depends only on the stem — two files with
equal stems get equal slugs whatever their folders. -/
theorem c8_slug_stem_only :
    (∀ p : LPath, slugOf p = pyReplaceSpaceHyphen (pyLower (pyStem p.name))) ∧
    (∀ p q : LPath, pyStem p.name = pyStem q.name → slugOf p = slugOf q) := by
  refine ⟨fun p => rfl, fun p q h => ?_⟩
  unfold slugOf
  rw [h]

/-- Witness for C8: `My Lesson.html` gets the slug `my-lesson` under
`01-basics` and under `99_other` alike. -/
theorem c8_slug_stem_only_witness :
    slugOf ⟨strToCodes "01-basics", strToCodes "My Lesson.html"⟩
      = slugOf ⟨strToCodes "99_other", strToCodes "My Lesson.html"⟩ ∧
    slugOf ⟨strToCodes "01-basics", strToCodes "My Lesson.html"⟩ = strToCodes "my-lesson" :=
  ⟨c8_slug_stem_only.2 ⟨strToCodes "01-basics", strToCodes "My Lesson.html"⟩
      ⟨strToCodes "99_other", strToCodes "My Lesson.html"⟩ (by decide),
   by decide⟩

/-- Claim C9 (confirmed): folder-name normalization is idempotent — its
output contains no separator to replace and no dot for the (dead) ordinal
strip, and capitalization is idempotent. -/
theorem c9_normalize_idempotent (s : PyStr) :
    normalizeChapter (normalizeChapter s) = normalizeChapter s := by
  rw [normalizeChapter_eq (normalizeChapter s),
    replaceSeps_eq_self _ (normalizeChapter_no_sep s),
    normalizeChapter_eq s]
  exact pyCapitalize_idem _

/-- Witness for C9: idempotence at the folder name `01-basics`. -/
theorem c9_normalize_idempotent_witness :
    normalizeChapter (normalizeChapter (strToCodes "01-basics"))
      = normalizeChapter (strToCodes "01-basics") :=
  c9_normalize_idempotent (strToCodes "01-basics")

/-- Claim C10, counterexample: a run that reaches reconciliation (validation
returns the non-empty `[good.html]`) can still leave input files
unclassified — the invalid `notes.txt` is fed to the loop, its slug matches
a remote lesson, and the line-460 `AttributeError` aborts before any list is
produced. -/
theorem c10_full_list_counterexample :
    validate_lesson_files inpD.fs inpD.lesson_files = .ok [pGoodD] ∧
    pNotesD ∈ inpD.lesson_files ∧
    mainRun inpD = .error .attributeError := by decide

/-- Claim C10, amended: reconciliation derives chapter groups and slugs from
the full command-line list rather than the validated subset; in every run
that completes without error, every file of the original input list —
including files that failed validation — appears as its
`(slug, filepath)` pair in lessons-to-create, and lessons-to-update is empty
(a slug match would instead have crashed the run at line 460). -/
theorem c10_full_list_amended (inp : RunInput) (r : ReconOutput)
    (h : mainRun inp = .ok r) :
    (∀ fp ∈ inp.lesson_files, NewLesson.mk (slugOf fp) fp ∈ r.lessons_to_create) ∧
    r.lessons_to_update = [] := by
  unfold mainRun at h
  split at h
  · simp at h
  · split at h
    · simp at h
    · split at h
      · simp at h
      · split at h
        · simp at h
        · split at h
          · simp at h
          · split at h
            · simp at h
            · split at h
              · simp at h
              · obtain ⟨hmem, hup⟩ := reconcileAll_ok _ _ _ r h
                refine ⟨?_, hup⟩
                intro fp hfp
                exact hmem (slugOf fp, fp) (mem_buildLessonsMap inp.lesson_files fp hfp)

/-- Witness for C10: the run of `inpW` completes, and the invalid
`notes.txt` is classified into lessons-to-create. -/
theorem c10_full_list_amended_witness :
    mainRun inpW = .ok outW ∧
    NewLesson.mk (strToCodes "notes") pNotesW ∈ outW.lessons_to_create := by
  have hrun : mainRun inpW = .ok outW := by decide
  have hmem := (c10_full_list_amended inpW outW hrun).1 pNotesW (by decide)
  have hs : slugOf pNotesW = strToCodes "notes" := by decide
  rw [hs] at hmem
  exact ⟨hrun, hmem⟩

end PublishLessons
